import Mathlib

/-!
Verification of `netlify/functions/calculate-slots.js`.

The JavaScript handler is shallowly embedded below:
* Machine timestamps are `Int` milliseconds since the epoch; a JS
  `Invalid Date` (whose `getTime()` is `NaN`) is modelled as `none : Option Int`,
  which makes every `<` comparison against it false, as NaN does.
* JSON values coming out of `JSON.parse`, together with the JS value
  `undefined` produced by property access, are the inductive `JSVal`.
* The host `Date` string parser is an oracle parameter
  `pd : String → Option Int` (the repository does not implement date parsing;
  `new Date(string)` is a host facility).
* The ambient local timezone used by `Date.prototype.getHours`/`getMinutes`
  is an explicit fixed-offset parameter `tz : Int` (minutes east of UTC), so
  a run of the handler is `handler pd tz input`.
-/

/-- JS values relevant to the handler: the image of `JSON.parse` plus
`undefined`, which property access on a non-object produces. -/
inductive JSVal where
  | jundefined
  | jnull
  | jbool (b : Bool)
  | jnum (n : Int)
  | jstr (s : String)
  | jarr (xs : List JSVal)
  | jobj (fields : List (String × JSVal))

/-- The parse-boundary outcome for `event.body`:
`absent` = `event.body` falsy (missing or empty string), so `JSON.parse`
is never called; `invalid` = truthy but `JSON.parse` throws;
`parsed v` = truthy and parses to the JS value `v`. -/
inductive BodyInput where
  | absent
  | invalid
  | parsed (v : JSVal)

/-- JS truthiness of a value (`undefined`, `null`, `false`, `0`, `""` are
falsy; arrays and objects are always truthy). -/
def jsTruthy : JSVal → Bool
  | .jundefined => false
  | .jnull => false
  | .jbool b => b
  | .jnum n => !(n = 0)
  | .jstr s => !(s = "")
  | .jarr _ => true
  | .jobj _ => true

/-- JS property access `v[key]`: throws a TypeError on `undefined`/`null`,
looks the field up on an object, and yields `undefined` on every other
value (primitives and arrays have no such own property). -/
def jsGet (v : JSVal) (key : String) : Except Unit JSVal :=
  match v with
  | .jundefined => .error ()
  | .jnull => .error ()
  | .jobj fields =>
      match fields.lookup key with
      | some w => .ok w
      | none => .ok .jundefined
  | _ => .ok .jundefined

/-- `new Date(v)` for the values reaching it in this handler: a string goes
through the host parser oracle `pd` (`none` = Invalid Date), a number is
taken as milliseconds, `null`/booleans coerce to `0`/`1`, and `undefined`
gives an Invalid Date.  Arrays and objects coerce via `toPrimitive`; for
the generic inputs considered here that yields an Invalid Date, so they
are modelled as `none`. -/
def jsNewDate (pd : String → Option Int) : JSVal → Option Int
  | .jstr s => pd s
  | .jnum n => some n
  | .jnull => some 0
  | .jbool b => some (if b then 1 else 0)
  | .jundefined => none
  | .jarr _ => none
  | .jobj _ => none

/-- `date.getHours()` under the fixed ambient offset `tz` (minutes east of
UTC): local hour of day. -/
def jsGetHours (tz : Int) (t : Int) : Int :=
  ((t + tz * 60000).fdiv 3600000).emod 24

/-- `date.getMinutes()` under the fixed ambient offset `tz`. -/
def jsGetMinutes (tz : Int) (t : Int) : Int :=
  ((t + tz * 60000).fdiv 60000).emod 60

/-- The hardcoded grid `allSlots` from the source. -/
def allSlots : List String :=
  ["9:00", "9:30", "10:00", "10:30", "11:00", "11:30",
   "12:00", "12:30", "13:00", "13:30", "14:00", "14:30",
   "15:00", "15:30", "16:00", "16:30", "17:00", "17:30"]

/-- The template string
`` `${busyStartHour}:${busyStartMinute < 10 ? '0' + busyStartMinute : busyStartMinute}` ``
built from `current.getHours()` and `current.getMinutes()` (both local,
hence `tz`-dependent).  The `emod` results are nonnegative, so `toString`
agrees with JS number printing. -/
def formattedBusySlot (tz : Int) (t : Int) : String :=
  let h := jsGetHours tz t
  let m := jsGetMinutes tz t
  toString h ++ ":" ++ (if m < 10 then "0" ++ toString m else toString m)

/-- The `while (current.getTime() < end.getTime())` loop for one busy
interval with both dates valid: step 30 minutes at a time from `current`,
pushing `formattedBusySlot` whenever `allSlots.includes` it.  The loop is
driven by a fuel counter so that it is structurally recursive (hence
kernel-computable); `busyStep_eq_loop` below shows that with the fuel
`matchedSlots` supplies the fuel never runs out, so this is exactly the
source's while loop `busyStepLoop`. -/
def busyStep (tz : Int) (e : Int) : Nat → Int → List String
  | 0, _ => []
  | fuel + 1, current =>
      if current < e then
        let fbs := formattedBusySlot tz current
        (if allSlots.contains fbs then [fbs] else []) ++
          busyStep tz e fuel (current + 30 * 60000)
      else []

/-- The literal source loop, by well-founded recursion on the remaining
time: each iteration advances `current` by 30 minutes, so `e - current`
strictly shrinks while the guard holds. -/
def busyStepLoop (tz : Int) (e : Int) (current : Int) : List String :=
  if _h : current < e then
    let fbs := formattedBusySlot tz current
    (if allSlots.contains fbs then [fbs] else []) ++
      busyStepLoop tz e (current + 30 * 60000)
  else []
termination_by (e - current).toNat
decreasing_by simp_wf; omega

/-- Any fuel at least `(e - current).toNat` is enough: `busyStep` computes
the literal while loop. -/
theorem busyStep_eq_loop (tz : Int) (e : Int) :
    ∀ (fuel : Nat) (current : Int), (e - current).toNat ≤ fuel →
      busyStep tz e fuel current = busyStepLoop tz e current := by
  intro fuel
  induction fuel with
  | zero =>
      intro current h
      rw [busyStepLoop]
      have : ¬ current < e := by omega
      simp [busyStep, this]
  | succ n ih =>
      intro current h
      rw [busyStepLoop]
      by_cases hlt : current < e
      · have hfuel : (e - (current + 30 * 60000)).toNat ≤ n := by omega
        simp only [busyStep, hlt, if_true, dif_pos hlt]
        rw [ih _ hfuel]
        simp
      · simp [busyStep, hlt]

/-- The matched slots contributed by one busy interval `(start, end)`.
When either date is invalid its `getTime()` is `NaN`, the loop guard
`current.getTime() < end.getTime()` is false at once, and nothing is
pushed; otherwise the while loop runs, with fuel `(e - s).toNat`, which
bounds its iteration count. -/
def matchedSlots (tz : Int) : Option Int × Option Int → List String
  | (some s, some e) => busyStep tz e (e - s).toNat s
  | _ => []

/-- `matchedSlots` on valid dates is the literal while loop. -/
theorem matchedSlots_eq_loop (tz : Int) (s e : Int) :
    matchedSlots tz (some s, some e) = busyStepLoop tz e s :=
  busyStep_eq_loop tz e (e - s).toNat s le_rfl

/-- The full `busySlots` array: `rawBusySlots.forEach` pushing each
interval's matched slots in order. -/
def busySlotsOf (tz : Int) (ivs : List (Option Int × Option Int)) : List String :=
  ivs.flatMap (matchedSlots tz)

/-- `availableSlots`: the whole grid when no busy slot matched, otherwise
`allSlots.filter(slot => !busySet.has(slot))` (the `Set` only provides
membership, which `contains` models). -/
def availableSlots (busySlots : List String) : List String :=
  if busySlots.length = 0 then allSlots
  else allSlots.filter (fun slot => !(busySlots.contains slot))

/-- `parseInt(slot.replace(':', ''))` for the digit-and-colon slot strings
used here: drop the colon and read the decimal digits.  (JS `replace` with
a string pattern replaces the first occurrence; slot strings contain at
most one colon.) -/
def slotToNum (s : String) : Nat :=
  (s.data.filter (fun c => c ≠ ':')).foldl (fun acc c => acc * 10 + (c.toNat - 48)) 0

/-- `formatNumericalTime` from the source: split `num` as hundreds = hours
and remainder = minutes, 12-hour clock, `0` hour printed as `12` (JS
truthiness on `formattedHours`), minutes omitted when zero, zero-padded
when below 10, lowercase am/pm suffix. -/
def formatNumericalTime (num : Nat) : String :=
  let hours := num / 100
  let minutes := num % 100
  let ampm := if hours ≥ 12 then "pm" else "am"
  let fh := hours % 12
  let formattedHours := if fh = 0 then 12 else fh
  if minutes = 0 then
    toString formattedHours ++ ampm
  else
    toString formattedHours ++ ":" ++
      (if minutes < 10 then "0" ++ toString minutes else toString minutes) ++ ampm

/-- One rendered slot: `` `${formatNumericalTime(start)} to ${formatNumericalTime(start + 30)}` ``
where `start` is the parsed numerical slot and the end is `start + 30`
in the numerical encoding (no minute carry in the source). -/
def renderSlot (slot : String) : String :=
  let startTime := slotToNum slot
  formatNumericalTime startTime ++ " to " ++ formatNumericalTime (startTime + 30)

/-- The message construction: empty, singleton (via `availableSlots[0]`),
or comma-join of all but the popped last followed by `' and '` and the
last. -/
def resultMessage (availableSlots : List String) : String :=
  if availableSlots.length = 0 then
    "There are no available time slots."
  else if availableSlots.length = 1 then
    "These are the available time slots " ++ renderSlot (availableSlots.headD "")
  else
    let formatted := availableSlots.map renderSlot
    "These are the available time slots " ++
      String.intercalate ", " formatted.dropLast ++ " and " ++ formatted.getLastD ""

/-- The HTTP response record `{statusCode, headers, body}`. -/
structure Response where
  statusCode : Nat
  headers : List (String × String)
  body : String
deriving DecidableEq, Repr

/-- The catch-branch response: status 500, no headers, fixed generic body. -/
def errorResponse : Response :=
  { statusCode := 500, headers := [],
    body := "An error occurred while processing the request." }

/-- `rawBusySlots` extraction: `[]` when the body is falsy; a throwing
`JSON.parse` propagates; otherwise
`body.calendars['haseebinfo607@gmail.com'].busy || []`, where each
property access may throw per `jsGet`. -/
def extractRawBusySlots (input : BodyInput) : Except Unit JSVal :=
  match input with
  | .absent => .ok (.jarr [])
  | .invalid => .error ()
  | .parsed v => do
      let calendars ← jsGet v "calendars"
      let entry ← jsGet calendars "haseebinfo607@gmail.com"
      let busy ← jsGet entry "busy"
      .ok (if jsTruthy busy then busy else .jarr [])

/-- `rawBusySlots.forEach(slot => { const start = new Date(slot.start);
const end = new Date(slot.end); ... })`: calling `forEach` on a non-array
throws, and so does accessing `.start`/`.end` on `null`/`undefined`
elements. -/
def intervalsOf (pd : String → Option Int) : JSVal → Except Unit (List (Option Int × Option Int))
  | .jarr xs =>
      xs.mapM (fun slot => do
        let s ← jsGet slot "start"
        let e ← jsGet slot "end"
        .ok (jsNewDate pd s, jsNewDate pd e))
  | _ => .error ()

/-- The body of the `try` block: extraction, normalization, resolution,
rendering, and the 200 response. -/
def handlerCore (pd : String → Option Int) (tz : Int) (input : BodyInput) :
    Except Unit Response :=
  match extractRawBusySlots input with
  | .error e => .error e
  | .ok rawBusySlots =>
      match intervalsOf pd rawBusySlots with
      | .error e => .error e
      | .ok intervals =>
          .ok { statusCode := 200,
                headers := [("Content-Type", "text/plain")],
                body := resultMessage (availableSlots (busySlotsOf tz intervals)) }

/-- `exports.handler`: the try/catch wrapper around `handlerCore`. -/
def handler (pd : String → Option Int) (tz : Int) (input : BodyInput) : Response :=
  match handlerCore pd tz input with
  | .ok r => r
  | .error _ => errorResponse

/-! ## Helper lemmas about the normalizer and resolver -/

/-- The hardcoded grid has 18 pairwise-distinct entries. -/
theorem allSlots_nodup : allSlots.Nodup := by decide

/-- The grid has 18 slots. -/
theorem allSlots_length : allSlots.length = 18 := by decide

/-- Every slot the loop pushes passed the `allSlots.includes` guard, and is
the formatted local time of one of the 30-minute step times counted from
`current`. -/
theorem mem_busyStep (tz : Int) (e : Int) :
    ∀ (fuel : Nat) (current : Int) (x : String), x ∈ busyStep tz e fuel current →
      x ∈ allSlots ∧ ∃ k : Nat, x = formattedBusySlot tz (current + k * (30 * 60000)) := by
  intro fuel
  induction fuel with
  | zero =>
      intro current x hx
      simp [busyStep] at hx
  | succ n ih =>
      intro current x hx
      by_cases hlt : current < e
      · simp only [busyStep, if_pos hlt, List.mem_append] at hx
        rcases hx with hx | hx
        · by_cases hc : allSlots.contains (formattedBusySlot tz current) = true
          · rw [if_pos hc] at hx
            have hxe : x = formattedBusySlot tz current := List.mem_singleton.1 hx
            subst hxe
            refine ⟨List.elem_iff.mp hc, 0, ?_⟩
            norm_num
          · rw [if_neg hc] at hx
            cases hx
        · obtain ⟨hmem, k, hk⟩ := ih (current + 30 * 60000) x hx
          refine ⟨hmem, k + 1, ?_⟩
          rw [hk]
          congr 1
          push_cast
          ring
      · simp [busyStep, hlt] at hx

/-- Every slot a busy interval contributes lies in the grid, and its start
string is the formatted local time of one of the 30-minute step times
walked from the interval's own start. -/
theorem mem_matchedSlots {tz : Int} {iv : Option Int × Option Int} {x : String}
    (hx : x ∈ matchedSlots tz iv) :
    x ∈ allSlots ∧
      ∃ (s : Int) (k : Nat), iv.1 = some s ∧
        x = formattedBusySlot tz (s + k * (30 * 60000)) := by
  rcases iv with ⟨s, e⟩
  cases s with
  | none => simp [matchedSlots] at hx
  | some s' =>
      cases e with
      | none => simp [matchedSlots] at hx
      | some e' =>
          obtain ⟨hmem, k, hk⟩ := mem_busyStep tz e' _ s' x hx
          exact ⟨hmem, s', k, rfl, hk⟩

/-- Every entry of the accumulated `busySlots` array lies in the grid. -/
theorem mem_allSlots_of_mem_busySlotsOf {tz : Int}
    {ivs : List (Option Int × Option Int)} {x : String}
    (hx : x ∈ busySlotsOf tz ivs) : x ∈ allSlots := by
  rw [busySlotsOf, List.mem_flatMap] at hx
  obtain ⟨iv, _, hmem⟩ := hx
  exact (mem_matchedSlots hmem).1

/-- Splitting the grid by membership in the busy list: the free slots and
the distinct matched busy slots partition the 18-slot grid, provided every
busy entry lies in the grid. -/
theorem availableSlots_length_add_dedup (bs : List String)
    (h : ∀ x ∈ bs, x ∈ allSlots) :
    (availableSlots bs).length + bs.dedup.length = 18 := by
  by_cases hbs : bs.length = 0
  · have hnil : bs = [] := List.length_eq_zero.mp hbs
    subst hnil
    simp [availableSlots, allSlots_length]
  · rw [availableSlots, if_neg hbs]
    have hperm : List.Perm (allSlots.filter (fun slot => bs.contains slot)) bs.dedup := by
      rw [List.perm_ext_iff_of_nodup (allSlots_nodup.filter _) bs.nodup_dedup]
      intro a
      simp only [List.mem_filter, List.mem_dedup]
      constructor
      · rintro ⟨-, hc⟩
        exact List.elem_iff.mp hc
      · intro ha
        exact ⟨h a ha, List.elem_iff.mpr ha⟩
    have hlen := @List.length_eq_length_filter_add String allSlots
      (fun slot => bs.contains slot)
    rw [allSlots_length, hperm.length_eq] at hlen
    omega

/-! ## Claim theorems -/

/-- C6: for every request body that is not valid JSON, the handler returns
status 500 with the fixed generic error string as body and (being a total
function) no unhandled exception; no detail of the underlying cause
appears, since the body is the same literal for every parser oracle and
every ambient timezone. -/
theorem claim_C6 (pd : String → Option Int) (tz : Int) :
    (handler pd tz .invalid).statusCode = 500 ∧
      (handler pd tz .invalid).body =
        "An error occurred while processing the request." ∧
      handler pd tz .invalid = errorResponse :=
  ⟨rfl, rfl, rfl⟩

/-- C7: for every ambient offset and every busy-interval list, the number
of free slots plus the number of distinct matched busy slots is 18: the
grid is partitioned into free and busy, no slot counted twice even when
several busy intervals cover the same slot. -/
theorem claim_C7 (tz : Int) (ivs : List (Option Int × Option Int)) :
    (availableSlots (busySlotsOf tz ivs)).length +
      (busySlotsOf tz ivs).dedup.length = 18 :=
  availableSlots_length_add_dedup _ (fun _ hx => mem_allSlots_of_mem_busySlotsOf hx)

/-- C9: the handler is total — for every parser oracle, ambient offset and
body input it returns a response whose status code is 200 or 500 (the
stepping loop's termination is part of `busyStep`/`busyStepLoop` being
accepted as total definitions). -/
theorem claim_C9 (pd : String → Option Int) (tz : Int) (input : BodyInput) :
    (handler pd tz input).statusCode = 200 ∨
      (handler pd tz input).statusCode = 500 := by
  rw [handler]
  rcases h : handlerCore pd tz input with _ | r
  · right; rfl
  · left
    unfold handlerCore at h
    split at h
    · cases h
    · split at h
      · cases h
      · cases h
        rfl

/-- C10: for every ambient offset and busy-interval list (duplicates and
overlaps included), the free-slot list is a subsequence of the fixed
18-slot grid, duplicate-free, and strictly ascending in start time. -/
theorem claim_C10 (tz : Int) (ivs : List (Option Int × Option Int)) :
    List.Sublist (availableSlots (busySlotsOf tz ivs)) allSlots ∧
      (availableSlots (busySlotsOf tz ivs)).Nodup ∧
      (availableSlots (busySlotsOf tz ivs)).Pairwise
        (fun a b => slotToNum a < slotToNum b) := by
  have hsub : List.Sublist (availableSlots (busySlotsOf tz ivs)) allSlots := by
    rw [availableSlots]
    split
    · exact List.Sublist.refl _
    · exact List.filter_sublist _
  have hpair : allSlots.Pairwise (fun a b => slotToNum a < slotToNum b) := by decide
  exact ⟨hsub, allSlots_nodup.sublist hsub, hpair.sublist hsub⟩

/-- Date-parser oracle for the C1 scenario: the two timestamps of the busy
interval 09:10–09:50 on 2025-01-01 in the reference timezone (offset 0,
matching the ambient offset the handler is run at). -/
def pdC1 : String → Option Int := fun s =>
  if s = "2025-01-01T09:10:00Z" then some 1735722600000
  else if s = "2025-01-01T09:50:00Z" then some 1735725000000
  else none

/-- The C1 event body: one busy interval 09:10–09:50, nothing else busy. -/
def evC1 : BodyInput :=
  .parsed (.jobj [("calendars", .jobj [("haseebinfo607@gmail.com", .jobj
    [("busy", .jarr [.jobj [("start", .jstr "2025-01-01T09:10:00Z"),
                            ("end", .jstr "2025-01-01T09:50:00Z")]])])])])

/-- C1 fails on the code: with the single non-grid-aligned busy interval
[09:10, 09:50) and nothing else busy, the stepping normalizer matches no
slot at all (its step times 9:10 and 9:40 are not grid start strings), so
the 9:00–9:30 slot is NOT excluded and all 18 slots — not 17 — remain
free; the handler answers with the full-availability message. -/
theorem claim_C1_counterexample :
    (handler pdC1 0 evC1).statusCode = 200 ∧
      (handler pdC1 0 evC1).body = resultMessage allSlots ∧
      (availableSlots (busySlotsOf 0
        [(some 1735722600000, some 1735725000000)])).length = 18 ∧
      "9:00" ∈ availableSlots (busySlotsOf 0
        [(some 1735722600000, some 1735725000000)]) :=
  ⟨rfl, rfl, by decide, by decide⟩

/-- C1 (amended): the normalizer marks a grid slot only when one of the
30-minute step times walked from the busy interval's own start lands
exactly on the slot's start string — overlap alone marks nothing; in
particular the busy interval [09:10, 09:50) marks no slot and all 18
slots, the 9:00–9:30 slot included, remain free. -/
theorem claim_C1_amended :
    (∀ (tz s e : Int) (x : String), x ∈ matchedSlots tz (some s, some e) →
        x ∈ allSlots ∧ ∃ k : Nat, x = formattedBusySlot tz (s + k * (30 * 60000))) ∧
      busySlotsOf 0 [(some 1735722600000, some 1735725000000)] = [] ∧
      availableSlots (busySlotsOf 0
        [(some 1735722600000, some 1735725000000)]) = allSlots := by
  refine ⟨?_, by decide, by decide⟩
  intro tz s e x hx
  obtain ⟨hmem, s', k, hs', hk⟩ := mem_matchedSlots hx
  cases hs'
  exact ⟨hmem, k, hk⟩

/-- C1 witness: a grid-aligned interval 9:00–9:30 does mark the slot
`"9:00"`, which the amended statement locates at step time k = 0. -/
theorem claim_C1_amended_witness :
    "9:00" ∈ allSlots ∧
      ∃ k : Nat, "9:00" = formattedBusySlot 0 (32400000 + k * (30 * 60000)) :=
  claim_C1_amended.1 0 32400000 34200000 "9:00" (by decide)

/-- C2 is false of the code: a free slot starting on the half hour renders
its end as the start plus 30 in the NUMERICAL encoding, with no minute
carry, producing the invalid clock time "9:60am" instead of "10am". -/
theorem claim_C2_bug :
    formatNumericalTime (slotToNum "9:30" + 30) = "9:60am" ∧
      renderSlot "9:30" = "9:30am to 9:60am" ∧
      resultMessage ["9:30"] = "These are the available time slots 9:30am to 9:60am" :=
  ⟨rfl, rfl, rfl⟩

/-- Body shape with the calendar entry present and `busy` absent. -/
def bodyNoBusy : JSVal :=
  .jobj [("calendars", .jobj [("haseebinfo607@gmail.com", .jobj [])])]

/-- Body shape with `busy: null`. -/
def bodyNullBusy : JSVal :=
  .jobj [("calendars", .jobj [("haseebinfo607@gmail.com", .jobj [("busy", .jnull)])])]

/-- Body shape with `busy: []`. -/
def bodyEmptyBusy : JSVal :=
  .jobj [("calendars", .jobj [("haseebinfo607@gmail.com", .jobj [("busy", .jarr [])])])]

/-- The observed upstream quirk: a single-element array wrapping
`{ body: <shape> }`. -/
def bodyArrayWrapped : JSVal :=
  .jarr [.jobj [("body", bodyEmptyBusy)]]

/-- The 200 response carrying the full-availability message. -/
def fullOkResponse : Response :=
  { statusCode := 200, headers := [("Content-Type", "text/plain")],
    body := resultMessage allSlots }

/-- C3 fails on the code: a body missing the `calendars` key, a body
missing the calendar entry, and the single-element array wrapping
`{ body: <shape> }` — all in the claim's tolerated set — make the nested
property access throw, so the handler returns 500, not 200. -/
theorem claim_C3_counterexample :
    (handler (fun _ => none) 0 (.parsed (.jobj []))).statusCode = 500 ∧
      (handler (fun _ => none) 0
        (.parsed (.jobj [("calendars", .jobj [])]))).statusCode = 500 ∧
      (handler (fun _ => none) 0 (.parsed bodyArrayWrapped)).statusCode = 500 :=
  ⟨rfl, rfl, rfl⟩

/-- C3 (amended): only an absent/empty body, and bodies in which the
calendar entry object is present with `busy` absent, null, or the empty
array, are tolerated: those proceed with zero busy intervals and return
200 with the full-availability message.  (Missing `calendars`, a missing
calendar entry, and the array-wrapped quirk instead throw and yield 500,
as the counterexample shows.) -/
theorem claim_C3_amended (pd : String → Option Int) (tz : Int) :
    handler pd tz .absent = fullOkResponse ∧
      handler pd tz (.parsed bodyNoBusy) = fullOkResponse ∧
      handler pd tz (.parsed bodyNullBusy) = fullOkResponse ∧
      handler pd tz (.parsed bodyEmptyBusy) = fullOkResponse :=
  ⟨rfl, rfl, rfl, rfl⟩

/-- Date-parser oracle for the spec's concrete scenario: busy
14:00–15:00 UTC on 2025-01-01. -/
def pdC4 : String → Option Int := fun s =>
  if s = "2025-01-01T14:00:00Z" then some 1735740000000
  else if s = "2025-01-01T15:00:00Z" then some 1735743600000
  else none

/-- The C4 event body: one busy interval 14:00Z–15:00Z. -/
def evC4 : BodyInput :=
  .parsed (.jobj [("calendars", .jobj [("haseebinfo607@gmail.com", .jobj
    [("busy", .jarr [.jobj [("start", .jstr "2025-01-01T14:00:00Z"),
                            ("end", .jstr "2025-01-01T15:00:00Z")]])])])])

set_option maxRecDepth 100000 in
/-- C4 is false of the code: busy-slot matching goes through the ambient
`getHours`/`getMinutes`, so the same event under ambient offsets UTC+0 and
UTC+1 matches different grid slots (14:00/14:30 versus 15:00/15:30) and
the two runs return different responses. -/
theorem claim_C4_bug :
    busySlotsOf 0 [(some 1735740000000, some 1735743600000)] = ["14:00", "14:30"] ∧
      busySlotsOf 60 [(some 1735740000000, some 1735743600000)] = ["15:00", "15:30"] ∧
      handler pdC4 0 evC4 ≠ handler pdC4 60 evC4 :=
  ⟨by decide, by decide, by decide⟩

/-- The C5 event body: one busy interval whose timestamps no date parser
accepts. -/
def evMalformed : BodyInput :=
  .parsed (.jobj [("calendars", .jobj [("haseebinfo607@gmail.com", .jobj
    [("busy", .jarr [.jobj [("start", .jstr "not a timestamp"),
                            ("end", .jstr "also not a timestamp")]])])])])

/-- C5 fails on the code: a request whose only busy interval has malformed
timestamps is answered with status 200 and the full-availability message —
`new Date` yields an Invalid Date, the NaN loop guard is false, and the
interval is silently skipped instead of failing the request with 500. -/
theorem claim_C5_counterexample :
    (handler (fun _ => none) 0 evMalformed).statusCode = 200 ∧
      (handler (fun _ => none) 0 evMalformed).body = resultMessage allSlots :=
  ⟨rfl, rfl⟩

/-- C5 (amended): a busy interval with a malformed (unparsable) timestamp
is silently skipped — its stepping loop never runs, it contributes no busy
slots, and the computation proceeds exactly as if the interval were
absent. -/
theorem claim_C5_amended (tz : Int) (pre post : List (Option Int × Option Int))
    (s e : Option Int) (h : s = none ∨ e = none) :
    busySlotsOf tz (pre ++ (s, e) :: post) = busySlotsOf tz (pre ++ post) := by
  have hms : matchedSlots tz (s, e) = [] := by
    rcases h with h | h
    · subst h; cases e <;> rfl
    · subst h; cases s <;> rfl
  simp [busySlotsOf, List.flatMap_append, hms]

/-- C5 witness: dropping one interval with an invalid start from a
singleton busy list leaves the matched busy slots unchanged. -/
theorem claim_C5_amended_witness :
    busySlotsOf 0 ([] ++ (none, some 1735743600000) :: []) = busySlotsOf 0 ([] ++ []) :=
  claim_C5_amended 0 [] [] none (some 1735743600000) (Or.inl rfl)

/-- C8 fails on the code: the one-slot and many-slot sentences carry no
trailing period (only the empty-grid sentence does). -/
theorem claim_C8_counterexample :
    resultMessage ["9:00"] = "These are the available time slots 9am to 9:30am" ∧
      resultMessage ["9:00"] ≠ "These are the available time slots 9am to 9:30am." ∧
      resultMessage ["9:00", "9:30"] =
        "These are the available time slots 9am to 9:30am and 9:30am to 9:60am" ∧
      resultMessage ["9:00", "9:30"] ≠
        "These are the available time slots 9am to 9:30am and 9:30am to 9:60am." :=
  ⟨rfl, by decide, rfl, by decide⟩

/-- C8 (amended): zero free slots yields exactly "There are no available
time slots." (with period); one free slot yields "These are the available
time slots {slot}" with no trailing period; two or more yield "These are
the available time slots {s1}, …, {s(N-1)} and {sN}" — all but the last
comma-joined, a bare " and " (no Oxford comma for any N) before the last,
and no trailing period. -/
theorem claim_C8_amended :
    resultMessage [] = "There are no available time slots." ∧
      (∀ s, resultMessage [s] =
        "These are the available time slots " ++ renderSlot s) ∧
      (∀ a b, resultMessage [a, b] =
        "These are the available time slots " ++ renderSlot a ++ " and " ++ renderSlot b) ∧
      (∀ (a : String) (l : List String) (x : String),
        resultMessage (a :: l ++ [x]) =
          "These are the available time slots " ++
            String.intercalate ", " ((a :: l).map renderSlot) ++
            " and " ++ renderSlot x) := by
  refine ⟨rfl, fun s => rfl, fun a b => rfl, fun a l x => ?_⟩
  rw [resultMessage]
  rw [if_neg (by simp), if_neg (by simp)]
  have hform : (a :: l ++ [x]).map renderSlot =
      (renderSlot a :: l.map renderSlot) ++ [renderSlot x] := by simp
  simp only [hform]
  rw [List.dropLast_concat, List.getLastD_concat]
  simp
